import Mathlib

/-!
Verification of `oidcop/endpoint_context.py` (oidc-op): the bootstrap of the
shared endpoint context.  Python values are modelled by the inductive `PyVal`,
Python `dict`s by association lists (`dget` / `dinsert` mirror `d[k]` reads and
`d[k] = v` writes: an existing key keeps its position, a new key is appended,
exactly as CPython dicts behave).  In-place mutation of a dict that is reachable
from the configuration document is modelled by threading the updated document
value through each operation, so the post-state of `Ctx.conf` is the value the
caller's configuration object holds after the corresponding Python call.
Fallible operations return `Except PyErr`.
-/

namespace Oidcop

/-- Model of a Python value (only the shapes the module manipulates).
`vobj n` is an opaque object reference with identity `n` (fresh identities are
drawn from an allocation counter, modelling Python object identity). -/
inductive PyVal where
  | vnone : PyVal
  | vbool : Bool → PyVal
  | vint : Int → PyVal
  | vstr : String → PyVal
  | vlist : List PyVal → PyVal
  | vdict : List (String × PyVal) → PyVal
  | vobj : Nat → PyVal

/-- A Python dict, modelled as an association list in insertion order. -/
abbrev Dict := List (String × PyVal)

/-- `d.get(k)` / `d[k]` read: first (unique) binding of `k`. -/
def dget : Dict → String → Option PyVal
  | [], _ => none
  | (k, v) :: rest, key => if k = key then some v else dget rest key

/-- `d[k] = v` write: replace in place if the key exists (keeping its
position), otherwise append — CPython dict assignment semantics. -/
def dinsert : Dict → String → PyVal → Dict
  | [], key, val => [(key, val)]
  | (k, v) :: rest, key, val =>
      if k = key then (k, val) :: rest else (k, v) :: dinsert rest key val

/-- `d.update(q)`: insert every binding of `q` into `d`, in order. -/
def dupdate (d : Dict) (q : Dict) : Dict :=
  q.foldl (fun acc kv => dinsert acc kv.1 kv.2) d

/-- Python truthiness for the shapes of `PyVal`. -/
def truthy : PyVal → Bool
  | .vnone => false
  | .vbool b => b
  | .vint n => n != 0
  | .vstr s => !s.isEmpty
  | .vlist l => !l.isEmpty
  | .vdict d => !d.isEmpty
  | .vobj _ => true

/-- Navigate a nested dict along a key path (used to state concrete facts
about configuration documents). -/
def confAt (d : Dict) : List String → Option PyVal
  | [] => some (.vdict d)
  | [k] => dget d k
  | k :: rest =>
      match dget d k with
      | some (.vdict d2) => confAt d2 rest
      | _ => none

/-- Python exceptions raised by the modelled code. -/
inductive PyErr where
  | keyError : String → PyErr
  | typeError : String → PyErr
  | attributeError : String → PyErr
  | exc : String → PyErr

/-- `Except.isOk` spelled out for the statements below. -/
def exceptOk {ε α : Type} : Except ε α → Bool
  | .ok _ => true
  | .error _ => false

/-- Python `s.endswith(p)`, via the underlying character lists. -/
def str_endswith (s p : String) : Bool := p.data.isSuffixOf s.data

/-- Python `s.startswith(p)`, via the underlying character lists. -/
def str_startswith (s p : String) : Bool := p.data.isPrefixOf s.data

/-- Python `s[1:]`: drop the first character. -/
def str_drop1 (s : String) : String := ⟨s.data.drop 1⟩

/-- `add_path` (endpoint_context.py lines 24-34): joins a URL and a path with
exactly one separating slash.  Note: the bootstrap's JWKS-URI computation does
NOT call this helper. -/
def add_path (url : String) (path : String) : String :=
  if str_endswith url "/" then
    if str_startswith path "/" then url ++ str_drop1 path
    else url ++ path
  else
    if str_startswith path "/" then url ++ path
    else url ++ "/" ++ path

/-- The JWKS-URI concatenation actually performed by
`EndpointContext.__init__` (lines 207-210): it branches only on whether the
issuer ends in a slash and never inspects the path's leading character. -/
def jwks_concat (issuer path : String) : String :=
  if str_endswith issuer "/" then issuer ++ path
  else issuer ++ "/" ++ path

/-- The default key-definition list built by `get_token_handler_args`
(lines 66-70): three 24-byte symmetric encryption-use keys. -/
def default_keydef : PyVal := .vlist [
  .vdict [("type", .vstr "oct"), ("bytes", .vstr "24"),
          ("use", .vlist [.vstr "enc"]), ("kid", .vstr "code")],
  .vdict [("type", .vstr "oct"), ("bytes", .vstr "24"),
          ("use", .vlist [.vstr "enc"]), ("kid", .vstr "token")],
  .vdict [("type", .vstr "oct"), ("bytes", .vstr "24"),
          ("use", .vlist [.vstr "enc"]), ("kid", .vstr "refresh")]]

/-- The `jwks_def` block of the defaults (lines 72-76). -/
def default_jwks_def : PyVal := .vdict [
  ("private_path", .vstr "private/token_jwks.json"),
  ("key_defs", default_keydef),
  ("read_only", .vbool false)]

/-- The full default `th_args` value (lines 77-79): starts from
`{"jwks_def": ...}` and then assigns the three lifetime blocks in order. -/
def default_th_args : PyVal := .vdict
  (dinsert
    (dinsert
      (dinsert [("jwks_def", default_jwks_def)]
        "code" (.vdict [("lifetime", .vint 600)]))
      "token" (.vdict [("lifetime", .vint 3600)]))
    "refresh" (.vdict [("lifetime", .vint 86400)]))

/-- `get_token_handler_args` (lines 57-81): `conf.get("token_handler_args",
None)`, falling back to the synthesized defaults whenever that value is falsy
(absent, `None`, or e.g. an empty dict). -/
def get_token_handler_args (conf : Dict) : PyVal :=
  let th_args := (dget conf "token_handler_args").getD .vnone
  if truthy th_args then th_args else default_th_args

/-- A constructed service-style capability instance (the result of
`init_service`): it records the object identity, the `class` reference used
and the keyword arguments the constructor was invoked with.  The `userinfo`
attribute models the assignment `self.login_hint_lookup.userinfo = _userinfo`;
`Option Nat` is a (possibly null) reference to a user-info instance by
object identity. -/
structure ServiceObj where
  id : Nat
  cls : PyVal
  kwargs : Dict
  userinfo : Option Nat

/-- `init_service` (lines 46-54).  `kwargs = conf.get("kwargs", {})` aliases
the nested dict of the block when one is present, so the assignment
`kwargs["server_get"] = server_get` mutates the configuration document: the
first component of the result is the block as the caller's document sees it
afterwards.  `conf["class"]` is looked up afterwards and raises `KeyError`
when absent; a string class reference goes through `importer` (external,
modelled as the opaque reference itself). -/
def init_service (block : Dict) (server_get : PyVal) (alloc : Nat) :
    Except PyErr (Dict × ServiceObj × Nat) :=
  match dget block "kwargs" with
  | some (.vdict kw) =>
      let kw' := dinsert kw "server_get" server_get
      let block' := dinsert block "kwargs" (.vdict kw')
      match dget block' "class" with
      | some c => .ok (block', ⟨alloc, c, kw', none⟩, alloc + 1)
      | none => .error (.keyError "class")
  | none =>
      let kw' := dinsert [] "server_get" server_get
      match dget block "class" with
      | some c => .ok (block, ⟨alloc, c, kw', none⟩, alloc + 1)
      | none => .error (.keyError "class")
  | some _ => .error (.typeError "kwargs value does not support item assignment")

/-- `init_user_info` (lines 37-43): reads `conf.get("kwargs", {})` without
mutating it and constructs a user-info instance from `conf["class"]`
(`KeyError` when absent).  The instance is identified by a fresh object id
drawn from the allocation counter; the unused `cwd` parameter of the source
is omitted. -/
def init_user_info (block : Dict) (alloc : Nat) : Except PyErr (Nat × Nat) :=
  match dget block "class" with
  | some _ => .ok (alloc, alloc + 1)
  | none => .error (.keyError "class")

/-- An entry of the subject-identifier-function table built by
`do_sub_func`: either a constructed service instance or a bare function
reference. -/
inductive SubFunc where
  | svc : ServiceObj → SubFunc
  | fn : PyVal → SubFunc

/-- The session-management capability, as far as this module touches it:
an object identity plus the `userinfo` attribute that `do_userinfo`
assigns. -/
structure SessionMgr where
  id : Nat
  userinfo : Option Nat

/-- The authentication-broker capability: `get_acr_values()` returns the
stored (possibly null) list. -/
structure AuthnBroker where
  acr_values : Option (List PyVal)

/-- The ID-token capability, as read by `create_providerinfo`: its
`provider_info` fragment. -/
structure IdToken where
  provider_info : Dict

/-- Modelled from the spec: `SCOPE2CLAIMS` (imported from `oidcop.scopes`,
which is not under `src/`), the global scope-to-claims default table; only
its keys are observable through the claims below (they become the
`scopes_supported` default). -/
def SCOPE2CLAIMS : Dict := [
  ("openid", .vlist [.vstr "sub"]),
  ("profile", .vlist [.vstr "name", .vstr "given_name", .vstr "family_name",
    .vstr "middle_name", .vstr "nickname", .vstr "profile", .vstr "picture",
    .vstr "website", .vstr "gender", .vstr "birthdate", .vstr "zoneinfo",
    .vstr "locale", .vstr "updated_at", .vstr "preferred_username"]),
  ("email", .vlist [.vstr "email", .vstr "email_verified"]),
  ("address", .vlist [.vstr "address"]),
  ("phone", .vlist [.vstr "phone_number", .vstr "phone_number_verified"]),
  ("offline_access", .vlist [])]

/-- Modelled from the spec: `STANDARD_CLAIMS` (imported from
`oidcop.session.claims`, not under `src/`), the fixed standard-claims list
used as the `claims_supported` default. -/
def STANDARD_CLAIMS : List String := [
  "sub", "name", "given_name", "family_name", "middle_name", "nickname",
  "preferred_username", "profile", "picture", "website", "email",
  "email_verified", "gender", "birthdate", "zoneinfo", "locale",
  "phone_number", "phone_number_verified", "address", "updated_at"]

/-- The aggregate endpoint context: the fields of `EndpointContext` that the
verified operations read or write.  Fields of the source that no claim
touches (seed, symkey, sso_ttl, client_authn, cookie_name, template handler,
httpc_params, scopes handler, cdb/jti_db/par_db and the other empty
sub-dictionaries) are elided; the elided initialization steps only read the
configuration document.  `warnings` collects `logger.warning` messages. -/
structure Ctx where
  conf : Dict
  alloc : Nat
  issuer : PyVal
  jwks_uri : Option String
  th_args : PyVal
  sub_func : List (String × SubFunc)
  cookie_dealer : Option ServiceObj
  userinfo : Option Nat
  session_manager : Option SessionMgr
  login_hint_lookup : Option ServiceObj
  login_hint2acrs : Option ServiceObj
  idtoken : Option IdToken
  authn_broker : Option AuthnBroker
  keyjar : Bool
  scope2claims : Dict
  warnings : List String

/-- One entry of the `sub_func` loop body (lines 307-314): a `class` entry is
built with `init_service` (which may mutate the entry's kwargs), an entry
with only `function` resolves the bare reference, anything else is skipped. -/
def sub_func_entry (args : Dict) (alloc : Nat) :
    Except PyErr (Dict × Option SubFunc × Nat) :=
  match dget args "class" with
  | some _ =>
      match init_service args .vnone alloc with
      | .ok (args', svc, a') => .ok (args', some (.svc svc), a')
      | .error e => .error e
  | none =>
      match dget args "function" with
      | some f => .ok (args, some (.fn f), alloc)
      | none => .ok (args, none, alloc)

/-- The `for key, args in _conf.items()` loop of `do_sub_func`: returns the
entry list as the document sees it afterwards, the built table, and the
advanced allocation counter. -/
def sub_func_fold : List (String × PyVal) → Nat →
    Except PyErr (List (String × PyVal) × List (String × SubFunc) × Nat)
  | [], a => .ok ([], [], a)
  | (name, v) :: rest, a =>
      match v with
      | .vdict args =>
          match sub_func_entry args a with
          | .error e => .error e
          | .ok (args', sf, a1) =>
              match sub_func_fold rest a1 with
              | .error e => .error e
              | .ok (rest', subs, a2) =>
                  .ok ((name, .vdict args') :: rest',
                       (match sf with
                        | some s => (name, s) :: subs
                        | none => subs), a2)
      | _ => .error (.typeError "sub_func entry is not a mapping")

/-- `do_sub_func` (lines 300-314): `self.conf.get("sub_func", {})`; an absent
block loops over nothing. -/
def do_sub_func (ctx : Ctx) : Except PyErr Ctx :=
  match dget ctx.conf "sub_func" with
  | none => .ok ctx
  | some (.vdict entries) =>
      match sub_func_fold entries ctx.alloc with
      | .error e => .error e
      | .ok (entries', subs, a') =>
          .ok { ctx with conf := dinsert ctx.conf "sub_func" (.vdict entries'),
                         sub_func := subs, alloc := a' }
  | some _ => .error (.typeError "sub_func block is not a mapping")

/-- Lines 203-212 of `EndpointContext.__init__`.  The lookup
`conf["keys"]["uri_path"]` (line 204) sits OUTSIDE the `try`, so a missing
`keys` block or `uri_path` entry raises `KeyError`; the `except KeyError`
clause guards only the two string formats, which cannot raise it, and is
therefore dead.  (A non-string `uri_path` would be coerced by `str.format`
in Python; it is modelled as an error since no claim exercises it.) -/
def jwks_step (ctx : Ctx) : Except PyErr Ctx :=
  match dget ctx.conf "keys" with
  | none => .error (.keyError "keys")
  | some (.vdict kd) =>
      match dget kd "uri_path" with
      | none => .error (.keyError "uri_path")
      | some (.vstr path) =>
          match ctx.issuer with
          | .vstr iss => .ok { ctx with jwks_uri := some (jwks_concat iss path) }
          | _ => .error (.attributeError "issuer has no attribute endswith")
      | some _ => .error (.typeError "uri_path is not a string")
  | some _ => .error (.typeError "keys block is not subscriptable")

/-- `do_cookie_dealer` (lines 294-298): only builds a dealer when the block
is truthy and none was supplied to the constructor. -/
def do_cookie_dealer (ctx : Ctx) : Except PyErr Ctx :=
  match dget ctx.conf "cookie_dealer" with
  | none => .ok ctx
  | some v =>
      if truthy v then
        match ctx.cookie_dealer with
        | some _ => .ok ctx
        | none =>
            match v with
            | .vdict block =>
                match init_service block .vnone ctx.alloc with
                | .error e => .error e
                | .ok (block', svc, a') =>
                    .ok { ctx with
                          conf := dinsert ctx.conf "cookie_dealer" (.vdict block')
                          cookie_dealer := some svc
                          alloc := a' }
            | _ => .error (.typeError "cookie_dealer block is not a mapping")
      else .ok ctx

/-- `do_userinfo` (lines 285-292): with a truthy `userinfo` block, a present
session manager gets a freshly constructed user-info instance wired into
both fields; with no session manager only a warning is logged. -/
def do_userinfo (ctx : Ctx) : Except PyErr Ctx :=
  match dget ctx.conf "userinfo" with
  | none => .ok ctx
  | some v =>
      if truthy v then
        match ctx.session_manager with
        | some sm =>
            match v with
            | .vdict block =>
                match init_user_info block ctx.alloc with
                | .error e => .error e
                | .ok (uid, a') =>
                    .ok { ctx with
                          userinfo := some uid
                          session_manager := some { sm with userinfo := some uid }
                          alloc := a' }
            | _ => .error (.typeError "userinfo block is not a mapping")
        | none =>
            .ok { ctx with
                  warnings := ctx.warnings ++
                    ["Cannot init_user_info if no session manager was provided."] }
      else .ok ctx

/-- Lines 272-277 of `do_login_hint_lookup`: the nested
`kwargs.userinfo` sub-block, when one is configured (`_kwargs` and
`_userinfo_conf` are both tested for truthiness). -/
def nested_userinfo_conf (block : Dict) : Except PyErr (Option Dict) :=
  match dget block "kwargs" with
  | none => .ok none
  | some kw =>
      if truthy kw then
        match kw with
        | .vdict kwd =>
            match dget kwd "userinfo" with
            | none => .ok none
            | some uconf =>
                if truthy uconf then
                  match uconf with
                  | .vdict ub => .ok (some ub)
                  | _ => .error (.typeError "nested userinfo is not a mapping")
                else .ok none
        | _ => .error (.attributeError "kwargs has no attribute get")
      else .ok none

/-- Construct the nested user-info instance when a sub-block was found
(line 277), else report that `_userinfo` stayed `None`. -/
def build_nested_userinfo (nested : Option Dict) (alloc : Nat) :
    Except PyErr (Option Nat × Nat) :=
  match nested with
  | some ub =>
      match init_user_info ub alloc with
      | .ok (uid, a) => .ok (some uid, a)
      | .error e => .error e
  | none => .ok (none, alloc)

/-- `do_login_hint_lookup` (lines 269-283): resolve the (possibly nested)
user-info reference, fall back to the context's user-info when it is `None`,
construct the service (mutating the block's kwargs), and assign its
`userinfo` attribute. -/
def do_login_hint_lookup (ctx : Ctx) : Except PyErr Ctx :=
  match dget ctx.conf "login_hint_lookup" with
  | none => .ok ctx
  | some v =>
      if truthy v then
        match v with
        | .vdict block =>
            match nested_userinfo_conf block with
            | .error e => .error e
            | .ok nested =>
                match build_nested_userinfo nested ctx.alloc with
                | .error e => .error e
                | .ok (uiOpt, a1) =>
                    match init_service block .vnone a1 with
                    | .error e => .error e
                    | .ok (block', svc, a2) =>
                        let ui := match uiOpt with
                                  | some u => some u
                                  | none => ctx.userinfo
                        .ok { ctx with
                              conf := dinsert ctx.conf "login_hint_lookup"
                                        (.vdict block')
                              login_hint_lookup := some { svc with userinfo := ui }
                              alloc := a2 }
        | _ => .error (.typeError "login_hint_lookup block is not a mapping")
      else .ok ctx

/-- `do_login_hint2acrs` (lines 261-267): a falsy or absent block explicitly
resets the field to `None`. -/
def do_login_hint2acrs (ctx : Ctx) : Except PyErr Ctx :=
  match dget ctx.conf "login_hint2acrs" with
  | none => .ok { ctx with login_hint2acrs := none }
  | some v =>
      if truthy v then
        match v with
        | .vdict block =>
            match init_service block .vnone ctx.alloc with
            | .error e => .error e
            | .ok (block', svc, a') =>
                .ok { ctx with
                      conf := dinsert ctx.conf "login_hint2acrs" (.vdict block'),
                      login_hint2acrs := some svc, alloc := a' }
        | _ => .error (.typeError "login_hint2acrs block is not a mapping")
      else .ok { ctx with login_hint2acrs := none }

/-- The context as it stands after the default-field assignments and the
scalar parameter loop (lines 122-174): `issuer` is overwritten from the
configuration when present (`try setattr / except KeyError: pass`), the
token-handler arguments are resolved, `idtoken` starts as `None`.
`cookie_dealer` and `keyjar` come from the constructor's parameters /
the external `OidcContext` superclass. -/
def initCtx (conf : Dict) (cookie_dealer : Option ServiceObj) (keyjar : Bool) : Ctx :=
  { conf := conf
    alloc := 0
    issuer := (dget conf "issuer").getD (.vstr "")
    jwks_uri := none
    th_args := get_token_handler_args conf
    sub_func := []
    cookie_dealer := cookie_dealer
    userinfo := none
    session_manager := none
    login_hint_lookup := none
    login_hint2acrs := none
    idtoken := none
    authn_broker := none
    keyjar := keyjar
    scope2claims := SCOPE2CLAIMS
    warnings := [] }

/-- `EndpointContext.__init__` (lines 114-241), restricted to the modelled
fields, in source order: defaults and scalar copies, `get_token_handler_args`,
`do_sub_func`, the JWKS-URI computation, then the two hook loops.  Of the
first hook loop (`cookie_dealer`, `authentication`, `id_token`,
`scope2claims`) only `do_cookie_dealer` is defined on the class, so the other
three are skipped by the `getattr` test; the second loop runs `do_userinfo`,
`do_login_hint_lookup`, `do_login_hint2acrs` in that order.  An exception in
any step propagates and no context is produced. -/
def bootstrap (conf : Dict) (cookie_dealer : Option ServiceObj) (keyjar : Bool) :
    Except PyErr Ctx :=
  match do_sub_func (initCtx conf cookie_dealer keyjar) with
  | .error e => .error e
  | .ok c1 =>
      match jwks_step c1 with
      | .error e => .error e
      | .ok c2 =>
          match do_cookie_dealer c2 with
          | .error e => .error e
          | .ok c3 =>
              match do_userinfo c3 with
              | .error e => .error e
              | .ok c4 =>
                  match do_login_hint_lookup c4 with
                  | .error e => .error e
                  | .ok c5 => do_login_hint2acrs c5

/-- Lines 324-326 of `create_providerinfo`: overwrite `issuer` and the
fixed `version` marker in the caller's capabilities mapping. -/
def pinfo_base (ctx : Ctx) (capabilities : Dict) : Dict :=
  dinsert (dinsert capabilities "issuer" ctx.issuer) "version" (.vstr "3.0")

/-- Lines 329-332: add `acr_values_supported` when an authentication broker
is present and reports a non-null value list. -/
def pinfo_acr (ctx : Ctx) (p : Dict) : Dict :=
  match ctx.authn_broker with
  | some ab =>
      match ab.acr_values with
      | some acrs => dinsert p "acr_values_supported" (.vlist acrs)
      | none => p
  | none => p

/-- Lines 334-335: add `jwks_uri` when both the URI and the key jar are
truthy. -/
def pinfo_jwks (ctx : Ctx) (p : Dict) : Dict :=
  match ctx.jwks_uri with
  | some u => if !u.isEmpty && ctx.keyjar then dinsert p "jwks_uri" (.vstr u) else p
  | none => p

/-- Lines 338-341: default `scopes_supported` to the scope-to-claims keys
and `claims_supported` to the standard-claims list when still absent. -/
def pinfo_defaults (ctx : Ctx) (p : Dict) : Dict :=
  let p5 := if (dget p "scopes_supported").isNone
            then dinsert p "scopes_supported"
                   (.vlist (ctx.scope2claims.map (fun kv => .vstr kv.1)))
            else p
  if (dget p5 "claims_supported").isNone
  then dinsert p5 "claims_supported" (.vlist (STANDARD_CLAIMS.map .vstr))
  else p5

/-- `create_providerinfo` (lines 316-343), composed from the steps above.
The unconditional `self.idtoken.provider_info` dereference (line 337)
raises on a null ID-token capability; in the source the base-mapping
mutations have already happened at that point, but the raise discards the
result either way, so matching on `idtoken` up front gives the same
outcome. -/
def create_providerinfo (ctx : Ctx) (capabilities : Dict) : Except PyErr Dict :=
  match ctx.idtoken with
  | none => .error (.attributeError "NoneType object has no attribute provider_info")
  | some idt =>
      .ok (pinfo_defaults ctx
            (dupdate (pinfo_jwks ctx (pinfo_acr ctx (pinfo_base ctx capabilities)))
              idt.provider_info))

/-- One iteration of the `do_add_on` loop (lines 253-259): look up the
`function` reference (resolving a string through `importer`) and the
`kwargs` block, then call `_func(endpoints, **kwargs)`.  `sem` gives the
behaviour of the called add-on function: the endpoint set it leaves behind,
or the exception it raises (resolution failures included). -/
def stepAddOn (sem : PyVal → Dict → PyVal → Except PyErr PyVal)
    (spec : PyVal) (endpoints : PyVal) : Except PyErr PyVal :=
  match spec with
  | .vdict sd =>
      match dget sd "function" with
      | none => .error (.keyError "function")
      | some f =>
          match dget sd "kwargs" with
          | some (.vdict kw) => sem f kw endpoints
          | some _ => .error (.typeError "kwargs is not a mapping")
          | none => .error (.keyError "kwargs")
  | _ => .error (.typeError "add_on spec is not a mapping")

/-- The `for spec in self.conf["add_on"].values()` loop, instrumented with
the list of entry names that were actually processed (in order); the loop
stops at the first exception and propagates it. -/
def runAddOns (sem : PyVal → Dict → PyVal → Except PyErr PyVal) :
    List (String × PyVal) → PyVal → List String × Except PyErr PyVal
  | [], endpoints => ([], .ok endpoints)
  | (name, spec) :: rest, endpoints =>
      match stepAddOn sem spec endpoints with
      | .error e => ([name], .error e)
      | .ok endpoints' =>
          let r := runAddOns sem rest endpoints'
          (name :: r.1, r.2)

/-- `do_add_on` (lines 252-259): guarded by the truthiness of
`self.conf.get("add_on")`; dict iteration follows insertion order. -/
def do_add_on (sem : PyVal → Dict → PyVal → Except PyErr PyVal)
    (conf : Dict) (endpoints : PyVal) : List String × Except PyErr PyVal :=
  match dget conf "add_on" with
  | none => ([], .ok endpoints)
  | some v =>
      if truthy v then
        match v with
        | .vdict addons => runAddOns sem addons endpoints
        | _ => ([], .error (.attributeError "add_on has no attribute values"))
      else ([], .ok endpoints)

/-- Lookup inside a `PyVal` that is a dict. -/
def vget (v : PyVal) (k : String) : Option PyVal :=
  match v with
  | .vdict d => dget d k
  | _ => none

/-- The `server_get` entry (or any key) of the kwargs a service constructor
was invoked with, read off an `init_service` result. -/
def svc_kwargs_at (r : Except PyErr (Dict × ServiceObj × Nat)) (k : String) :
    Option PyVal :=
  match r with
  | .ok (_, svc, _) => dget svc.kwargs k
  | .error _ => none

/-- The `userinfo` attribute of the constructed login-hint-lookup service,
read off a `do_login_hint_lookup` result. -/
def lhl_userinfo_at (r : Except PyErr Ctx) : Option (Option Nat) :=
  match r with
  | .ok c => c.login_hint_lookup.map (fun s => s.userinfo)
  | .error _ => none

/-- Shape check used as a hypothesis: the `kwargs` entry of a service block
is either absent or a dict (anything else makes `init_service` raise). -/
def kwargs_shape_ok (block : Dict) : Bool :=
  match dget block "kwargs" with
  | none => true
  | some (.vdict _) => true
  | some _ => false

/-- Lookup in a provider-info assembly result. -/
def pinfo_at (r : Except PyErr Dict) (k : String) : Option PyVal :=
  match r with
  | .ok p => dget p k
  | .error _ => none

/-- The `jwks_uri` field of a bootstrap result. -/
def jwks_of (r : Except PyErr Ctx) : Option String :=
  match r with
  | .ok c => c.jwks_uri
  | .error _ => none

/-- The configuration document as it stands after a successful bootstrap. -/
def conf_after (r : Except PyErr Ctx) : Option Dict :=
  match r with
  | .ok c => some c.conf
  | .error _ => none

/-- The ID-token capability of a bootstrap result (`some ⟨[]⟩` marks the
error case so that `= none` is only satisfied by a successful bootstrap). -/
def idtoken_of (r : Except PyErr Ctx) : Option IdToken :=
  match r with
  | .ok c => c.idtoken
  | .error _ => some ⟨[]⟩

/-- A configuration with an issuer but no `keys` block. -/
def conf_no_keys : Dict := [("issuer", .vstr "https://idp.example")]

/-- A configuration with `keys.uri_path` but no issuer. -/
def conf_no_issuer : Dict := [("keys", .vdict [("uri_path", .vstr "jwks.json")])]

/-- A configuration whose `login_hint2acrs` block carries a kwargs mapping. -/
def conf_c3 : Dict :=
  [("keys", .vdict [("uri_path", .vstr "jwks.json")]),
   ("login_hint2acrs", .vdict
     [("class", .vstr "oidcop.login_hint.LoginHint2Acrs"),
      ("kwargs", .vdict [("scheme_map", .vdict [])])])]

/-- A service block whose caller-supplied kwargs already carry `server_get`. -/
def block_c4 : Dict :=
  [("class", .vstr "oidcop.util.CookieDealer"),
   ("kwargs", .vdict [("server_get", .vstr "caller-supplied")])]

/-- A context holding a truthy `userinfo` block and no session manager. -/
def ctx_c6 : Ctx :=
  { conf := [("userinfo", .vdict [("class", .vstr "oidcop.user_info.UserInfo")])]
    alloc := 3
    issuer := .vstr "https://idp.example"
    jwks_uri := none
    th_args := .vnone
    sub_func := []
    cookie_dealer := none
    userinfo := none
    session_manager := none
    login_hint_lookup := none
    login_hint2acrs := none
    idtoken := none
    authn_broker := none
    keyjar := false
    scope2claims := []
    warnings := [] }

/-- A context with a user-info instance already wired (object id 42) and a
`login_hint_lookup` block with no nested userinfo sub-block. -/
def ctx_c7 : Ctx :=
  { ctx_c6 with
    conf := [("login_hint_lookup", .vdict
      [("class", .vstr "oidcop.login_hint.LoginHintLookup")])]
    userinfo := some 42 }

/-- A context with an ID-token capability exposing a provider-info fragment. -/
def ctx_c8 : Ctx :=
  { ctx_c6 with
    idtoken := some ⟨[("grant_types_supported",
      .vlist [.vstr "authorization_code", .vstr "implicit"])]⟩ }

/-- An add-on semantics for the closed instances below: the function
reference `"boom"` raises, every other function appends its name to the
endpoint list. -/
def sem_ex : PyVal → Dict → PyVal → Except PyErr PyVal :=
  fun f _ endpoints =>
    match f, endpoints with
    | .vstr "boom", _ => .error (.exc "boom")
    | .vstr s, .vlist l => .ok (.vlist (l ++ [.vstr s]))
    | _, _ => .ok endpoints

/-- An `add_on` configuration with three entries, the second of which
raises. -/
def addons_ex : List (String × PyVal) :=
  [("pkce", .vdict [("function", .vstr "add_pkce"), ("kwargs", .vdict [])]),
   ("bad", .vdict [("function", .vstr "boom"), ("kwargs", .vdict [])]),
   ("dpop", .vdict [("function", .vstr "add_dpop"), ("kwargs", .vdict [])])]

def conf_c9 : Dict := [("add_on", .vdict addons_ex)]

@[simp] theorem dget_dinsert_self (d : Dict) (k : String) (v : PyVal) :
    dget (dinsert d k v) k = some v := by
  induction d with
  | nil => simp [dget, dinsert]
  | cons kv rest ih =>
      obtain ⟨k', v'⟩ := kv
      by_cases h : k' = k <;> simp [dget, dinsert, h, ih]

theorem dget_dinsert_ne (d : Dict) (k k' : String) (v : PyVal) (h : k' ≠ k) :
    dget (dinsert d k v) k' = dget d k' := by
  induction d with
  | nil => simp [dget, dinsert, Ne.symm h]
  | cons kv rest ih =>
      obtain ⟨k0, v0⟩ := kv
      by_cases h0 : k0 = k
      · subst h0
        simp [dget, dinsert, Ne.symm h]
      · simp [dget, dinsert, h0, ih]

theorem dget_dupdate_of_absent (d q : Dict) (k : String) (h : dget q k = none) :
    dget (dupdate d q) k = dget d k := by
  induction q generalizing d with
  | nil => rfl
  | cons kv rest ih =>
      obtain ⟨k0, v0⟩ := kv
      by_cases h0 : k0 = k
      · simp [dget, h0] at h
      · have hrest : dget rest k = none := by
          simpa [dget, h0] using h
        have hstep : dupdate d ((k0, v0) :: rest) = dupdate (dinsert d k0 v0) rest := rfl
        rw [hstep, ih _ hrest, dget_dinsert_ne _ _ _ _ (Ne.symm h0)]

theorem str_endswith_append_slash (s : String) :
    str_endswith (s ++ "/") "/" = true := by
  simp [str_endswith, String.data_append, List.isSuffixOf_iff_suffix]

/-- Claim C1 (amended): the bootstrap JWKS-URI concatenation is insensitive
to a trailing slash on the issuer — for every issuer not already ending in
`/`, the issuer and its slash-terminated variant produce the same URI, and
with a path not starting in `/` that URI is `issuer ++ "/" ++ path`, with
exactly one separating slash; both example inputs with path `jwks.json`
yield `https://idp.example/jwks.json`.  A leading slash on the path is
however kept as-is, so issuer `https://idp.example/` with path `/jwks.json`
yields the double-slashed `https://idp.example//jwks.json`. -/
theorem jwks_uri_slash_amended :
    (∀ issuer path : String, str_endswith issuer "/" = false →
        jwks_concat issuer path = issuer ++ "/" ++ path ∧
        jwks_concat (issuer ++ "/") path = issuer ++ "/" ++ path) ∧
    jwks_concat "https://idp.example/" "jwks.json" = "https://idp.example/jwks.json" ∧
    jwks_concat "https://idp.example" "jwks.json" = "https://idp.example/jwks.json" ∧
    jwks_concat "https://idp.example/" "/jwks.json" = "https://idp.example//jwks.json" := by
  refine ⟨fun issuer path h => ⟨?_, ?_⟩, by decide, by decide, by decide⟩
  · simp [jwks_concat, h]
  · simp [jwks_concat, str_endswith_append_slash]

/-- Witness for the amended C1 theorem at issuer `https://idp.example`,
path `jwks.json`. -/
theorem jwks_uri_slash_amended_witness :
    jwks_concat "https://idp.example" "jwks.json" =
      "https://idp.example" ++ "/" ++ "jwks.json" ∧
    jwks_concat ("https://idp.example" ++ "/") "jwks.json" =
      "https://idp.example" ++ "/" ++ "jwks.json" :=
  jwks_uri_slash_amended.1 "https://idp.example" "jwks.json" (by decide)

/-- Counterexample to claim C1 as stated: at issuer `https://idp.example/`
and path `/jwks.json` the bootstrap computation yields a double slash, not
the claimed `https://idp.example/jwks.json`. -/
theorem jwks_uri_double_slash_cex :
    jwks_concat "https://idp.example/" "/jwks.json" = "https://idp.example//jwks.json" ∧
    "https://idp.example//jwks.json" ≠ "https://idp.example/jwks.json" := by
  exact ⟨by decide, by decide⟩

/-- Claim C4 (amended): `init_service` always injects the `server_get`
accessor into the keyword arguments before the constructor runs — the value
it was called with is assigned unconditionally, overwriting any
caller-supplied `server_get` entry rather than preserving it. -/
theorem server_get_injected_amended (block : Dict) (sg : PyVal) (a : Nat)
    (out : Dict × ServiceObj × Nat)
    (h : init_service block sg a = .ok out) :
    dget out.2.1.kwargs "server_get" = some sg := by
  unfold init_service at h
  split at h
  · dsimp only at h
    split at h
    · simp only [Except.ok.injEq] at h
      subst h
      simp
    · exact Except.noConfusion h
  · dsimp only at h
    split at h
    · simp only [Except.ok.injEq] at h
      subst h
      simp
    · exact Except.noConfusion h
  · exact Except.noConfusion h

/-- Witness for the amended C4 theorem: the constructor kwargs produced for
`block_c4` carry the injected accessor. -/
theorem server_get_injected_amended_witness :
    dget [("server_get", PyVal.vobj 7)] "server_get" = some (PyVal.vobj 7) :=
  server_get_injected_amended block_c4 (.vobj 7) 0
    ([("class", PyVal.vstr "oidcop.util.CookieDealer"),
      ("kwargs", PyVal.vdict [("server_get", PyVal.vobj 7)])],
     ⟨0, PyVal.vstr "oidcop.util.CookieDealer",
      [("server_get", PyVal.vobj 7)], none⟩, 1) rfl

/-- Counterexample to claim C4 as stated: with a caller-supplied
`server_get` entry in the block's kwargs, the constructor receives the
injected accessor, not the caller-supplied value. -/
theorem server_get_overwrite_cex :
    svc_kwargs_at (init_service block_c4 (.vobj 7) 0) "server_get" =
      some (.vobj 7) ∧
    some (PyVal.vobj 7) ≠ some (PyVal.vstr "caller-supplied") :=
  ⟨rfl, by simp⟩

/-- Claim C5 (amended): when `token_handler_args` is absent — or present but
falsy, e.g. an empty dict, which the claim's "present ⇒ verbatim" direction
misses — the synthesized defaults carry the three lifetimes 600/3600/86400
under `code`/`token`/`refresh` and three 24-byte `enc`-use symmetric key
descriptors with those kids; a present truthy block is used verbatim. -/
theorem token_handler_args_amended :
    (∀ conf : Dict, truthy ((dget conf "token_handler_args").getD .vnone) = false →
        get_token_handler_args conf = default_th_args) ∧
    (∀ conf : Dict, ∀ v : PyVal, dget conf "token_handler_args" = some v →
        truthy v = true → get_token_handler_args conf = v) ∧
    vget default_th_args "code" = some (.vdict [("lifetime", .vint 600)]) ∧
    vget default_th_args "token" = some (.vdict [("lifetime", .vint 3600)]) ∧
    vget default_th_args "refresh" = some (.vdict [("lifetime", .vint 86400)]) ∧
    vget default_jwks_def "key_defs" = some default_keydef ∧
    default_keydef = .vlist [
      .vdict [("type", .vstr "oct"), ("bytes", .vstr "24"),
              ("use", .vlist [.vstr "enc"]), ("kid", .vstr "code")],
      .vdict [("type", .vstr "oct"), ("bytes", .vstr "24"),
              ("use", .vlist [.vstr "enc"]), ("kid", .vstr "token")],
      .vdict [("type", .vstr "oct"), ("bytes", .vstr "24"),
              ("use", .vlist [.vstr "enc"]), ("kid", .vstr "refresh")]] := by
  refine ⟨?_, ?_, rfl, rfl, rfl, rfl, rfl⟩
  · intro conf h
    simp [get_token_handler_args, h]
  · intro conf v h1 h2
    simp [get_token_handler_args, h1, h2]

/-- Witness for the amended C5 theorem: a configuration without the block
gets the defaults, one with a truthy block gets it verbatim. -/
theorem token_handler_args_amended_witness :
    get_token_handler_args [] = default_th_args ∧
    get_token_handler_args [("token_handler_args", .vdict [("code", .vdict [("lifetime", .vint 5)])])] =
      .vdict [("code", .vdict [("lifetime", .vint 5)])] :=
  ⟨token_handler_args_amended.1 [] (by decide),
   token_handler_args_amended.2.1 _ _ rfl (by decide)⟩

/-- Counterexample to claim C5 as stated: `token_handler_args` present as an
empty dict is not used verbatim — the defaults are synthesized instead. -/
theorem th_args_empty_cex :
    dget [("token_handler_args", PyVal.vdict [])] "token_handler_args" =
      some (.vdict []) ∧
    get_token_handler_args [("token_handler_args", PyVal.vdict [])] =
      default_th_args ∧
    default_th_args ≠ .vdict [] := by
  refine ⟨rfl, rfl, ?_⟩
  intro h
  simp [default_th_args, dinsert] at h

/-- Claim C6 (confirmed): with a truthy `userinfo` block and no
session-management capability, `do_userinfo` leaves the context unchanged
except for appending the warning — the user-info field stays as it was
(unset) and no exception is raised. -/
theorem userinfo_skip_no_session_manager (ctx : Ctx) (v : PyVal)
    (h1 : dget ctx.conf "userinfo" = some v) (h2 : truthy v = true)
    (h3 : ctx.session_manager = none) :
    do_userinfo ctx = .ok { ctx with
      warnings := ctx.warnings ++
        ["Cannot init_user_info if no session manager was provided."] } := by
  simp [do_userinfo, h1, h2, h3]

/-- Witness for C6 at the concrete context `ctx_c6`. -/
theorem userinfo_skip_no_session_manager_witness :
    do_userinfo ctx_c6 = .ok { ctx_c6 with
      warnings := ctx_c6.warnings ++
        ["Cannot init_user_info if no session manager was provided."] } :=
  userinfo_skip_no_session_manager ctx_c6
    (.vdict [("class", .vstr "oidcop.user_info.UserInfo")]) rfl rfl rfl

/-- Claim C7 (confirmed): when the `login_hint_lookup` block has no nested
`kwargs.userinfo` sub-block (and the service itself constructs), the
constructed capability's `userinfo` attribute is the very reference stored
in the context's top-level user-info field — object identity, since
references are modelled by object ids. -/
theorem login_hint_lookup_userinfo_identity (ctx : Ctx) (block : Dict)
    (h1 : dget ctx.conf "login_hint_lookup" = some (.vdict block))
    (h2 : truthy (PyVal.vdict block) = true)
    (h3 : nested_userinfo_conf block = .ok none)
    (h4 : (dget block "class").isSome = true)
    (h5 : kwargs_shape_ok block = true) :
    lhl_userinfo_at (do_login_hint_lookup ctx) = some ctx.userinfo := by
  obtain ⟨c, hc⟩ := Option.isSome_iff_exists.mp h4
  unfold do_login_hint_lookup
  rw [h1]
  simp only [h2, if_true]
  rw [h3]
  unfold build_nested_userinfo
  unfold init_service
  unfold kwargs_shape_ok at h5
  split at h5
  · next hkw =>
      rw [hkw]
      dsimp only
      rw [hc]
      simp [lhl_userinfo_at]
  · next kw hkw =>
      rw [hkw]
      dsimp only
      rw [dget_dinsert_ne _ _ _ _ (by decide), hc]
      simp [lhl_userinfo_at]
  · exact absurd h5 (by simp)

/-- Witness for C7 at the concrete context `ctx_c7` (user-info id 42). -/
theorem login_hint_lookup_userinfo_identity_witness :
    lhl_userinfo_at (do_login_hint_lookup ctx_c7) = some (some 42) :=
  login_hint_lookup_userinfo_identity ctx_c7
    [("class", .vstr "oidcop.login_hint.LoginHintLookup")]
    rfl rfl rfl rfl rfl

theorem dget_pinfo_acr_ne (ctx : Ctx) (p : Dict) (k : String)
    (hk : k ≠ "acr_values_supported") : dget (pinfo_acr ctx p) k = dget p k := by
  unfold pinfo_acr
  repeat split
  all_goals first
    | rfl
    | exact dget_dinsert_ne _ _ _ _ hk

theorem dget_pinfo_jwks_ne (ctx : Ctx) (p : Dict) (k : String)
    (hk : k ≠ "jwks_uri") : dget (pinfo_jwks ctx p) k = dget p k := by
  unfold pinfo_jwks
  repeat split
  all_goals first
    | rfl
    | exact dget_dinsert_ne _ _ _ _ hk

theorem dget_pinfo_defaults_ne (ctx : Ctx) (p : Dict) (k : String)
    (hk1 : k ≠ "scopes_supported") (hk2 : k ≠ "claims_supported") :
    dget (pinfo_defaults ctx p) k = dget p k := by
  unfold pinfo_defaults
  dsimp only
  repeat' split
  all_goals first
    | rfl
    | simp [dget_dinsert_ne _ _ _ _ hk1, dget_dinsert_ne _ _ _ _ hk2]

/-- Claim C8 (confirmed): for every caller-supplied base capabilities
mapping, provider-info assembly succeeds with `issuer` equal to the
context's issuer and `version` equal to the fixed `"3.0"` marker, whatever
values the base mapping carries for those keys (provided, as in every
bootstrapped context, the ID-token fragment itself does not carry them). -/
theorem providerinfo_issuer_version_fixed (ctx : Ctx) (caps : Dict) (idt : IdToken)
    (h : ctx.idtoken = some idt)
    (hni : dget idt.provider_info "issuer" = none)
    (hnv : dget idt.provider_info "version" = none) :
    exceptOk (create_providerinfo ctx caps) = true ∧
    pinfo_at (create_providerinfo ctx caps) "issuer" = some ctx.issuer ∧
    pinfo_at (create_providerinfo ctx caps) "version" = some (.vstr "3.0") := by
  unfold create_providerinfo
  rw [h]
  refine ⟨rfl, ?_, ?_⟩
  · dsimp only [pinfo_at]
    rw [dget_pinfo_defaults_ne _ _ _ (by decide) (by decide),
        dget_dupdate_of_absent _ _ _ hni,
        dget_pinfo_jwks_ne _ _ _ (by decide),
        dget_pinfo_acr_ne _ _ _ (by decide)]
    simp [pinfo_base, dget_dinsert_ne]
  · dsimp only [pinfo_at]
    rw [dget_pinfo_defaults_ne _ _ _ (by decide) (by decide),
        dget_dupdate_of_absent _ _ _ hnv,
        dget_pinfo_jwks_ne _ _ _ (by decide),
        dget_pinfo_acr_ne _ _ _ (by decide)]
    simp [pinfo_base]

/-- Witness for C8 at `ctx_c8` with a base mapping that tries to override
both fields. -/
theorem providerinfo_issuer_version_fixed_witness :
    exceptOk (create_providerinfo ctx_c8
      [("issuer", .vstr "https://evil.example"), ("version", .vstr "9.9")]) = true ∧
    pinfo_at (create_providerinfo ctx_c8
      [("issuer", .vstr "https://evil.example"), ("version", .vstr "9.9")]) "issuer" =
      some (.vstr "https://idp.example") ∧
    pinfo_at (create_providerinfo ctx_c8
      [("issuer", .vstr "https://evil.example"), ("version", .vstr "9.9")]) "version" =
      some (.vstr "3.0") :=
  providerinfo_issuer_version_fixed ctx_c8 _
    ⟨[("grant_types_supported",
      .vlist [.vstr "authorization_code", .vstr "implicit"])]⟩ rfl rfl rfl

theorem do_sub_func_ok (ctx ctx' : Ctx) (h : do_sub_func ctx = .ok ctx') :
    ctx'.idtoken = ctx.idtoken ∧
    ∀ k, k ≠ "sub_func" → dget ctx'.conf k = dget ctx.conf k := by
  unfold do_sub_func at h
  repeat' split at h
  all_goals try exact Except.noConfusion h
  all_goals simp only [Except.ok.injEq] at h
  all_goals subst h
  all_goals refine ⟨rfl, fun k hk => ?_⟩
  all_goals first
    | rfl
    | exact dget_dinsert_ne _ _ _ _ hk

theorem jwks_step_ok (ctx ctx' : Ctx) (h : jwks_step ctx = .ok ctx') :
    ctx'.idtoken = ctx.idtoken ∧ ctx'.conf = ctx.conf := by
  unfold jwks_step at h
  repeat' split at h
  all_goals try exact Except.noConfusion h
  all_goals simp only [Except.ok.injEq] at h
  all_goals subst h
  exact ⟨rfl, rfl⟩

theorem do_cookie_dealer_ok (ctx ctx' : Ctx) (h : do_cookie_dealer ctx = .ok ctx') :
    ctx'.idtoken = ctx.idtoken ∧
    ∀ k, k ≠ "cookie_dealer" → dget ctx'.conf k = dget ctx.conf k := by
  unfold do_cookie_dealer at h
  repeat' split at h
  all_goals try exact Except.noConfusion h
  all_goals simp only [Except.ok.injEq] at h
  all_goals subst h
  all_goals refine ⟨rfl, fun k hk => ?_⟩
  all_goals first
    | rfl
    | exact dget_dinsert_ne _ _ _ _ hk

theorem do_userinfo_ok (ctx ctx' : Ctx) (h : do_userinfo ctx = .ok ctx') :
    ctx'.idtoken = ctx.idtoken ∧ ctx'.conf = ctx.conf := by
  unfold do_userinfo at h
  repeat' split at h
  all_goals try exact Except.noConfusion h
  all_goals simp only [Except.ok.injEq] at h
  all_goals subst h
  all_goals exact ⟨rfl, rfl⟩

theorem do_login_hint_lookup_ok (ctx ctx' : Ctx)
    (h : do_login_hint_lookup ctx = .ok ctx') :
    ctx'.idtoken = ctx.idtoken ∧
    ∀ k, k ≠ "login_hint_lookup" → dget ctx'.conf k = dget ctx.conf k := by
  unfold do_login_hint_lookup at h
  repeat' split at h
  all_goals try exact Except.noConfusion h
  all_goals try dsimp only at h
  all_goals simp only [Except.ok.injEq] at h
  all_goals subst h
  all_goals refine ⟨rfl, fun k hk => ?_⟩
  all_goals first
    | rfl
    | exact dget_dinsert_ne _ _ _ _ hk

theorem do_login_hint2acrs_ok (ctx ctx' : Ctx)
    (h : do_login_hint2acrs ctx = .ok ctx') :
    ctx'.idtoken = ctx.idtoken ∧
    ∀ k, k ≠ "login_hint2acrs" → dget ctx'.conf k = dget ctx.conf k := by
  unfold do_login_hint2acrs at h
  repeat' split at h
  all_goals try exact Except.noConfusion h
  all_goals simp only [Except.ok.injEq] at h
  all_goals subst h
  all_goals refine ⟨rfl, fun k hk => ?_⟩
  all_goals first
    | rfl
    | exact dget_dinsert_ne _ _ _ _ hk

theorem bootstrap_steps (conf : Dict) (cd : Option ServiceObj) (kj : Bool)
    (ctx : Ctx) (h : bootstrap conf cd kj = .ok ctx) :
    ∃ c1 c2 c3 c4 c5,
      do_sub_func (initCtx conf cd kj) = .ok c1 ∧
      jwks_step c1 = .ok c2 ∧
      do_cookie_dealer c2 = .ok c3 ∧
      do_userinfo c3 = .ok c4 ∧
      do_login_hint_lookup c4 = .ok c5 ∧
      do_login_hint2acrs c5 = .ok ctx := by
  unfold bootstrap at h
  repeat' split at h
  all_goals try exact Except.noConfusion h
  exact ⟨_, _, _, _, _, by assumption, by assumption, by assumption,
         by assumption, by assumption, h⟩

theorem bootstrap_idtoken_none (conf : Dict) (cd : Option ServiceObj) (kj : Bool)
    (ctx : Ctx) (h : bootstrap conf cd kj = .ok ctx) : ctx.idtoken = none := by
  obtain ⟨c1, c2, c3, c4, c5, h1, h2, h3, h4, h5, h6⟩ :=
    bootstrap_steps conf cd kj ctx h
  rw [(do_login_hint2acrs_ok _ _ h6).1, (do_login_hint_lookup_ok _ _ h5).1,
      (do_userinfo_ok _ _ h4).1, (do_cookie_dealer_ok _ _ h3).1,
      (jwks_step_ok _ _ h2).1, (do_sub_func_ok _ _ h1).1]
  rfl

/-- Claim C10 (confirmed): a context bootstrapped by `EndpointContext.__init__`
always has a null ID-token capability (line 147 sets it and no `do_id_token`
initializer exists to change it), and on every such context
`create_providerinfo` raises instead of returning a metadata document,
because of the unconditional `self.idtoken.provider_info` dereference. -/
theorem providerinfo_requires_idtoken :
    (∀ (conf : Dict) (cd : Option ServiceObj) (kj : Bool) (ctx : Ctx),
        bootstrap conf cd kj = .ok ctx → ctx.idtoken = none) ∧
    (∀ (ctx : Ctx) (caps : Dict), ctx.idtoken = none →
        create_providerinfo ctx caps =
          .error (.attributeError "NoneType object has no attribute provider_info")) := by
  refine ⟨bootstrap_idtoken_none, ?_⟩
  intro ctx caps h
  simp [create_providerinfo, h]

/-- Witness for C10: the bootstrap of `conf_no_issuer` yields a null
ID-token capability, and provider-info assembly on `ctx_c6` (which has
`idtoken = none`) raises. -/
theorem providerinfo_requires_idtoken_witness :
    idtoken_of (bootstrap conf_no_issuer none false) = none ∧
    create_providerinfo ctx_c6 [] =
      .error (.attributeError "NoneType object has no attribute provider_info") :=
  ⟨providerinfo_requires_idtoken.1 conf_no_issuer none false _ rfl,
   providerinfo_requires_idtoken.2 ctx_c6 [] rfl⟩

/-- Claim C2 (code bug): with `keys.uri_path` missing, the bootstrap raises
`KeyError` instead of silently skipping — line 204 sits outside the
`try/except KeyError`, which therefore guards only the two `str.format`
calls and can never fire.  And with the issuer unset, a (relative) URI
`/jwks.json` IS produced rather than the computation being skipped. -/
theorem jwks_missing_conf_raises :
    bootstrap conf_no_keys none false = .error (.keyError "keys") ∧
    jwks_of (bootstrap conf_no_issuer none false) = some "/jwks.json" :=
  ⟨rfl, rfl⟩

/-- Counterexample to claim C3 as stated: after bootstrapping `conf_c3` the
configuration document's `login_hint2acrs.kwargs` mapping holds a
`server_get` entry that was not there before — `init_service` mutated the
nested kwargs dict in place. -/
theorem conf_mutation_cex :
    (conf_after (bootstrap conf_c3 none false)).bind
      (fun d => confAt d ["login_hint2acrs", "kwargs", "server_get"]) =
      some .vnone ∧
    confAt conf_c3 ["login_hint2acrs", "kwargs", "server_get"] = none ∧
    some PyVal.vnone ≠ (none : Option PyVal) :=
  ⟨rfl, rfl, by simp⟩

/-- Claim C3 (amended): bootstrap leaves every top-level configuration key
outside the four service blocks (`sub_func`, `cookie_dealer`,
`login_hint_lookup`, `login_hint2acrs`) unchanged; service construction
leaves its block untouched when the block has no `kwargs` mapping, and
otherwise mutates exactly that block's `kwargs` mapping in place by
inserting the `server_get` entry. -/
theorem conf_frame_amended :
    (∀ (conf : Dict) (cd : Option ServiceObj) (kj : Bool) (ctx : Ctx) (k : String),
        bootstrap conf cd kj = .ok ctx →
        k ≠ "sub_func" → k ≠ "cookie_dealer" →
        k ≠ "login_hint_lookup" → k ≠ "login_hint2acrs" →
        dget ctx.conf k = dget conf k) ∧
    (∀ (block : Dict) (sg : PyVal) (a : Nat) (out : Dict × ServiceObj × Nat),
        init_service block sg a = .ok out →
        (dget block "kwargs" = none → out.1 = block) ∧
        (∀ kw, dget block "kwargs" = some (.vdict kw) →
            out.1 = dinsert block "kwargs" (.vdict (dinsert kw "server_get" sg)))) := by
  constructor
  · intro conf cd kj ctx k h hk1 hk2 hk3 hk4
    obtain ⟨c1, c2, c3, c4, c5, h1, h2, h3, h4, h5, h6⟩ :=
      bootstrap_steps conf cd kj ctx h
    rw [(do_login_hint2acrs_ok _ _ h6).2 k hk4,
        (do_login_hint_lookup_ok _ _ h5).2 k hk3,
        (do_userinfo_ok _ _ h4).2,
        (do_cookie_dealer_ok _ _ h3).2 k hk2,
        (jwks_step_ok _ _ h2).2,
        (do_sub_func_ok _ _ h1).2 k hk1]
    rfl
  · intro block sg a out h
    constructor
    · intro hkw
      unfold init_service at h
      rw [hkw] at h
      dsimp only at h
      split at h
      · simp only [Except.ok.injEq] at h
        subst h
        rfl
      · exact Except.noConfusion h
    · intro kw hkw
      unfold init_service at h
      rw [hkw] at h
      dsimp only at h
      split at h
      · simp only [Except.ok.injEq] at h
        subst h
        rfl
      · exact Except.noConfusion h

/-- Witness for the amended C3 theorem: the `keys` entry of `conf_c3`
survives the bootstrap unchanged. -/
theorem conf_frame_amended_witness :
    (match bootstrap conf_c3 none false with
     | .ok c => dget c.conf "keys"
     | .error _ => none) = dget conf_c3 "keys" :=
  conf_frame_amended.1 conf_c3 none false _ "keys" rfl
    (by decide) (by decide) (by decide) (by decide)

theorem runAddOns_ok_trace (sem : PyVal → Dict → PyVal → Except PyErr PyVal)
    (l : List (String × PyVal)) (eps eps0 : PyVal)
    (h : (runAddOns sem l eps).2 = .ok eps0) :
    (runAddOns sem l eps).1 = l.map Prod.fst := by
  induction l generalizing eps with
  | nil => rfl
  | cons a rest ih =>
      obtain ⟨name, spec⟩ := a
      cases hst : stepAddOn sem spec eps with
      | error e =>
          rw [runAddOns, hst] at h
          exact Except.noConfusion h
      | ok eps' =>
          rw [runAddOns, hst] at h ⊢
          dsimp only at h ⊢
          rw [ih eps' h]
          simp

theorem runAddOns_abort (sem : PyVal → Dict → PyVal → Except PyErr PyVal)
    (pre : List (String × PyVal)) (name : String) (spec : PyVal)
    (post : List (String × PyVal)) (eps eps' : PyVal) (e : PyErr)
    (hpre : runAddOns sem pre eps = (pre.map Prod.fst, .ok eps'))
    (hfail : stepAddOn sem spec eps' = .error e) :
    runAddOns sem (pre ++ (name, spec) :: post) eps =
      (pre.map Prod.fst ++ [name], .error e) := by
  induction pre generalizing eps with
  | nil =>
      simp [runAddOns] at hpre
      subst hpre
      simp [runAddOns, hfail]
  | cons a rest ih =>
      obtain ⟨n0, s0⟩ := a
      cases hst : stepAddOn sem s0 eps with
      | error e0 =>
          rw [runAddOns, hst] at hpre
          simp at hpre
      | ok eps1 =>
          rw [runAddOns, hst] at hpre
          dsimp only at hpre
          simp only [Prod.mk.injEq, List.map_cons, List.cons.injEq, true_and] at hpre
          have h2 : runAddOns sem rest eps1 = (rest.map Prod.fst, .ok eps') :=
            Prod.ext hpre.1 hpre.2
          rw [List.cons_append, runAddOns, hst]
          dsimp only
          rw [ih eps1 h2]
          simp

/-- Claim C9 (confirmed): `do_add_on` processes the configured add-on
entries exactly in declaration (insertion) order — the processed-name trace
is the full ordered name list when every add-on returns — and when an
add-on raises, the trace stops at it (nothing declared after it is invoked)
and the exception propagates. -/
theorem add_on_order_and_abort (sem : PyVal → Dict → PyVal → Except PyErr PyVal)
    (conf : Dict) (addons : List (String × PyVal)) (eps : PyVal)
    (hconf : dget conf "add_on" = some (.vdict addons))
    (hne : addons ≠ []) :
    do_add_on sem conf eps = runAddOns sem addons eps ∧
    (∀ eps0, (runAddOns sem addons eps).2 = .ok eps0 →
        (runAddOns sem addons eps).1 = addons.map Prod.fst) ∧
    (∀ (pre : List (String × PyVal)) (name : String) (spec : PyVal)
        (post : List (String × PyVal)) (eps' : PyVal) (e : PyErr),
        addons = pre ++ (name, spec) :: post →
        runAddOns sem pre eps = (pre.map Prod.fst, .ok eps') →
        stepAddOn sem spec eps' = .error e →
        runAddOns sem addons eps = (pre.map Prod.fst ++ [name], .error e)) := by
  refine ⟨?_, fun eps0 h => runAddOns_ok_trace sem addons eps eps0 h,
          fun pre name spec post eps' e hsplit hpre hfail => ?_⟩
  · cases addons with
    | nil => exact absurd rfl hne
    | cons a rest => simp [do_add_on, hconf, truthy]
  · rw [hsplit]
    exact runAddOns_abort sem pre name spec post eps eps' e hpre hfail

/-- Witness for C9 at `conf_c9` / `sem_ex`: of the three declared add-ons,
exactly `pkce` then `bad` are processed, the `boom` exception propagates,
and `dpop` is never invoked. -/
theorem add_on_order_and_abort_witness :
    runAddOns sem_ex addons_ex (.vlist []) =
      (["pkce", "bad"], .error (.exc "boom")) :=
  (add_on_order_and_abort sem_ex conf_c9 addons_ex (.vlist []) rfl
      (by simp [addons_ex])).2.2
    [("pkce", .vdict [("function", .vstr "add_pkce"), ("kwargs", .vdict [])])]
    "bad" (.vdict [("function", .vstr "boom"), ("kwargs", .vdict [])])
    [("dpop", .vdict [("function", .vstr "add_dpop"), ("kwargs", .vdict [])])]
    (.vlist [.vstr "add_pkce"]) (.exc "boom") rfl rfl rfl

end Oidcop
